import Mathlib

/-!
Verification development for the interference reference model
(`src/harness/reference_models/interference/interference.py`).

Frequencies, coordinates, heights and antenna parameters coming from the
data records are modelled as rationals (the Python sources hold exact
decimal values such as 3550.e6); quantities produced by logarithmic dB
arithmetic are modelled as reals.  External collaborators (geodesic
distance, terrain elevation, propagation models, antenna-gain patterns)
are passed in as explicit function parameters, as the spec treats them as
opaque pure functions.
-/

namespace Interference

/-- One megahertz, in Hz (source constant `MHZ = 1.e6`). -/
def MHZ : ℚ := 1000000

/-- CBRS band low edge in Hz (source constant `CBRS_LOW_FREQ_HZ = 3550.e6`). -/
def CBRS_LOW_FREQ_HZ : ℚ := 3550 * MHZ

/-- CBRS band high edge in Hz (source constant `CBRS_HIGH_FREQ_HZ = 3700.e6`). -/
def CBRS_HIGH_FREQ_HZ : ℚ := 3700 * MHZ

/-- ESC category A passband ceiling in Hz (source `ESC_CAT_A_HIGH_FREQ_HZ = 3660.e6`). -/
def ESC_CAT_A_HIGH_FREQ_HZ : ℚ := 3660 * MHZ

/-- IAP channel bandwidth in Hz (source `IAPBW_HZ = 5.e6`). -/
def IAPBW_HZ : ℚ := 5 * MHZ

/-- GWPZ / PPA reference incumbent height in meters (source `GWPZ_PPA_HEIGHT = 1.5`). -/
def GWPZ_PPA_HEIGHT : ℚ := 3 / 2

/-- In-band insertion loss in dB (source `IN_BAND_INSERTION_LOSS = 0.5`). -/
def IN_BAND_INSERTION_LOSS : ℝ := 0.5

/-- GWPZ neighborhood distance in km (source `GWPZ_NEIGHBORHOOD_DIST = 40`). -/
def GWPZ_NEIGHBORHOOD_DIST : ℚ := 40

/-- PPA neighborhood distance in km (source `PPA_NEIGHBORHOOD_DIST = 40`). -/
def PPA_NEIGHBORHOOD_DIST : ℚ := 40

/-- FSS co-channel neighborhood distance in km (source value 150). -/
def FSS_CO_CHANNEL_NEIGHBORHOOD_DIST : ℚ := 150

/-- FSS blocking neighborhood distance in km (source value 40). -/
def FSS_BLOCKING_NEIGHBORHOOD_DIST : ℚ := 40

/-- ESC neighborhood distance for category A CBSDs in km (source value 40). -/
def ESC_NEIGHBORHOOD_DIST_A : ℚ := 40

/-- ESC neighborhood distance for category B CBSDs in km (source value 80). -/
def ESC_NEIGHBORHOOD_DIST_B : ℚ := 80

/-- The five-variant protected entity type enumeration of the source. -/
inductive ProtectedEntityType where
  | GWPZ_AREA
  | PPA_AREA
  | FSS_CO_CHANNEL
  | FSS_BLOCKING
  | ESC
  deriving DecidableEq, Repr

/-- The value stored in the `entity_type` field of a protection constraint.
In Python this field can hold any object; `known` covers the five enum
members, `unknownTag` stands for any value outside the enumeration. -/
inductive EntityTag where
  | known (t : ProtectedEntityType)
  | unknownTag
  deriving DecidableEq, Repr

/-- Per-entity-type neighborhood radii table, source
`_DISTANCE_PER_PROTECTION_TYPE`: a pair (category A radius, category B
radius) in km. -/
def DISTANCE_PER_PROTECTION_TYPE : ProtectedEntityType → ℚ × ℚ
  | ProtectedEntityType.GWPZ_AREA => (GWPZ_NEIGHBORHOOD_DIST, GWPZ_NEIGHBORHOOD_DIST)
  | ProtectedEntityType.PPA_AREA => (PPA_NEIGHBORHOOD_DIST, PPA_NEIGHBORHOOD_DIST)
  | ProtectedEntityType.FSS_CO_CHANNEL =>
      (FSS_CO_CHANNEL_NEIGHBORHOOD_DIST, FSS_CO_CHANNEL_NEIGHBORHOOD_DIST)
  | ProtectedEntityType.FSS_BLOCKING =>
      (FSS_BLOCKING_NEIGHBORHOOD_DIST, FSS_BLOCKING_NEIGHBORHOOD_DIST)
  | ProtectedEntityType.ESC => (ESC_NEIGHBORHOOD_DIST_A, ESC_NEIGHBORHOOD_DIST_B)

/-- The CBSD grant record, source namedtuple `CbsdGrantInformation`. -/
structure CbsdGrantInformation where
  latitude : ℚ
  longitude : ℚ
  height_agl : ℚ
  indoor_deployment : Bool
  antenna_azimuth : ℚ
  antenna_gain : ℚ
  antenna_beamwidth : ℚ
  cbsd_category : String
  max_eirp : ℚ
  low_frequency : ℚ
  high_frequency : ℚ
  is_managed_grant : Bool
  deriving DecidableEq, Repr

/-- The protection constraint record, source namedtuple `ProtectionConstraint`. -/
structure ProtectionConstraint where
  latitude : ℚ
  longitude : ℚ
  low_frequency : ℚ
  high_frequency : ℚ
  entity_type : EntityTag
  deriving DecidableEq, Repr

/-- FSS protection point descriptor, source namedtuple `FssProtectionPoint`. -/
structure FssProtectionPoint where
  latitude : ℚ
  longitude : ℚ
  height_agl : ℚ
  max_gain_dbi : ℚ
  pointing_azimuth : ℚ
  pointing_elevation : ℚ
  deriving DecidableEq, Repr

/-- ESC sensor descriptor, source namedtuple `EscInformation`.  The
`antenna_pattern_gain` field is an opaque datum handed to the pattern-gain
collaborator; it is modelled as a rational. -/
structure EscInformation where
  antenna_height : ℚ
  antenna_azimuth : ℚ
  antenna_gain : ℚ
  antenna_pattern_gain : ℚ
  deriving DecidableEq, Repr

/-- `dbToLinear(x) = 10 ** (x / 10)`, dB to linear power (source `dbToLinear`). -/
noncomputable def dbToLinear (x : ℝ) : ℝ := (10 : ℝ) ^ (x / 10)

/-- `linearToDb(x) = 10 * log10(x)` (source `linearToDb`). -/
noncomputable def linearToDb (x : ℝ) : ℝ := 10 * Real.logb 10 x

/-- Source `getProtectedChannels`: clips `[low, high)` to the CBRS band and
channelizes it by `np.arange(start, stop, 5 MHz)` zipped against the same
grid shifted up by 5 MHz.  `np.arange` yields
`max 0 ⌈(stop - start) / step⌉` points `start, start + step, ...`,
modelled here over exact rationals.  The source asserts `low < high`
before channelizing. -/
def getProtectedChannels (low_freq_hz high_freq_hz : ℚ) : List (ℚ × ℚ) :=
  let start := max low_freq_hz (3550 * MHZ)
  let stop := min high_freq_hz (3700 * MHZ)
  let n : ℕ := if start < stop then (⌈(stop - start) / (5 * MHZ)⌉).toNat else 0
  (List.range n).map fun (i : ℕ) =>
    (start + (i : ℚ) * (5 * MHZ), start + (i : ℚ) * (5 * MHZ) + 5 * MHZ)

/-- Source `findGrantsInsideNeighborhood`.  The geodesic collaborator
`vincenty.GeodesicDistanceBearing` is abstracted as `distKm`, giving the
great-circle distance in km from the grant position to the protection
point (its two bearing outputs are discarded by the source).  A grant is
kept when its distance is at most the table radius picked by
`grant.cbsd_category == B` (tuple indexing by that boolean). -/
def findGrantsInsideNeighborhood (distKm : ℚ → ℚ → ℚ → ℚ → ℚ)
    (grants : List CbsdGrantInformation) (protection_point : ℚ × ℚ)
    (entity_type : ProtectedEntityType) : List CbsdGrantInformation :=
  grants.filter fun grant =>
    decide
      (distKm grant.latitude grant.longitude protection_point.1 protection_point.2 ≤
        (if grant.cbsd_category = "B" then (DISTANCE_PER_PROTECTION_TYPE entity_type).2
         else (DISTANCE_PER_PROTECTION_TYPE entity_type).1))

/-- Models the source guard
`ProtectedEntityType.ESC == _DISTANCE_PER_PROTECTION_TYPE[constraint.entity_type]`
in `findOverlappingGrants`: Python equality between the enum member `ESC`
and the tuple of radii stored in the table, which is false for every key
of the table (an enum member never equals a tuple). -/
def escEqDistanceEntry (_t : ProtectedEntityType) : Bool := false

/-- Lifts `escEqDistanceEntry` to the tag field.  For a tag outside the
enumeration the source raises `KeyError` at the table lookup before any
comparison; all claims exercise enumeration members only, where the
comparison is reached and is false. -/
def escEqDistanceEntryTag : EntityTag → Bool
  | EntityTag.known u => escEqDistanceEntry u
  | EntityTag.unknownTag => false

/-- Source `findOverlappingGrants`.  Keeps the grants whose frequency range
has strictly positive overlap with the constraint range
(`min(highs) - max(lows) > 0`); the category A carve-out branch is
guarded by `escEqDistanceEntryTag`, which is always false on enumeration
members, so the carve-out can never fire. -/
def findOverlappingGrants (grants : List CbsdGrantInformation)
    (constraint : ProtectionConstraint) : List CbsdGrantInformation :=
  grants.filter fun grant =>
    let overlapping_bw := min grant.high_frequency constraint.high_frequency -
      max grant.low_frequency constraint.low_frequency
    let freq_check : Bool := decide (0 < overlapping_bw)
    let freq_check :=
      if escEqDistanceEntryTag constraint.entity_type then
        if grant.cbsd_category = "A" ∧ ESC_CAT_A_HIGH_FREQ_HZ < constraint.high_frequency
          then false else freq_check
      else freq_check
    freq_check

/-- Installation parameters of a CBSD registration request.  The Python
source reads these from a nested dictionary with `.get`; the claims under
verification concern records whose fields are populated, so the fields
are modelled as present. -/
structure InstallationParam where
  latitude : ℚ
  longitude : ℚ
  height : ℚ
  heightType : String
  indoorDeployment : Bool
  antennaAzimuth : ℚ
  antennaGain : ℚ
  antennaBeamwidth : ℚ
  deriving DecidableEq, Repr

/-- The operation parameters of one grant inside a CBSD data record. -/
structure GrantRecord where
  maxEirp : ℚ
  lowFrequency : ℚ
  highFrequency : ℚ
  deriving DecidableEq, Repr

/-- One CBSD data record from a FAD dump: a registration request
(installation parameters and category) plus its list of grants. -/
structure CbsdDataRecord where
  installationParam : InstallationParam
  cbsdCategory : String
  grants : List GrantRecord
  deriving DecidableEq, Repr

/-- The grants extracted for one record given its normalized height, in
record order (inner loop of `getAllGrantInformationFromCbsdDataDump`). -/
def cbsdGrantsOfRecord (height_cbsd : ℚ) (record : CbsdDataRecord)
    (is_managing_sas : Bool) : List CbsdGrantInformation :=
  record.grants.map fun grant =>
    ⟨record.installationParam.latitude, record.installationParam.longitude,
     height_cbsd, record.installationParam.indoorDeployment,
     record.installationParam.antennaAzimuth, record.installationParam.antennaGain,
     record.installationParam.antennaBeamwidth, record.cbsdCategory,
     grant.maxEirp, grant.lowFrequency, grant.highFrequency, is_managing_sas⟩

/-- The terrain-normalized antenna height of a record: when the height
type is `AMSL` the terrain elevation collaborator value at the CBSD
position is subtracted, otherwise the registered height is used as-is. -/
def normalizedHeight (terrainElevation : ℚ → ℚ → ℚ) (record : CbsdDataRecord) : ℚ :=
  if record.installationParam.heightType = "AMSL" then
    record.installationParam.height - terrainElevation
      record.installationParam.latitude record.installationParam.longitude
  else record.installationParam.height

/-- Source `getAllGrantInformationFromCbsdDataDump`.  For each record the
antenna height is normalized to above-ground when the height type is
`AMSL` (subtracting the terrain elevation collaborator value), the height
is bounds-checked against [1, 1000] m (a violation raises `ValueError`,
modelled as `Except.error`), and one `CbsdGrantInformation` per grant is
appended.  No other field is validated. -/
def getAllGrantInformationFromCbsdDataDump (terrainElevation : ℚ → ℚ → ℚ) :
    List CbsdDataRecord → Bool → Except String (List CbsdGrantInformation)
  | [], _ => Except.ok []
  | record :: rest, is_managing_sas =>
    let height_cbsd := normalizedHeight terrainElevation record
    if height_cbsd < 1 ∨ height_cbsd > 1000 then
      Except.error "CBSD height is less than 1m or greater than 1000m."
    else
      match getAllGrantInformationFromCbsdDataDump terrainElevation rest is_managing_sas with
      | Except.error e => Except.error e
      | Except.ok gs =>
          Except.ok (cbsdGrantsOfRecord (normalizedHeight terrainElevation record)
            record is_managing_sas ++ gs)

/-- A FAD object, reduced to what the source uses: its list of CBSD
records (`getCbsdRecords()`). -/
structure FadObject where
  cbsdRecords : List CbsdDataRecord
  deriving DecidableEq, Repr

/-- One iteration of the inner loop of `getGrantObjectsFromFAD` over the
test-harness records: append the record to the accumulated list
`cbsd_list_th` and recompute `grant_objects_test_harness` over the whole
accumulated list (which can raise, propagated as `Except.error`). -/
def thRecordStep (terrainElevation : ℚ → ℚ → ℚ)
    (s : List CbsdDataRecord × Option (List CbsdGrantInformation))
    (record : CbsdDataRecord) :
    Except String (List CbsdDataRecord × Option (List CbsdGrantInformation)) :=
  let acc := s.1 ++ [record]
  match getAllGrantInformationFromCbsdDataDump terrainElevation acc false with
  | Except.error e => Except.error e
  | Except.ok gs => Except.ok (acc, some gs)

/-- Source `getGrantObjectsFromFAD`.  Extracts the SAS UUT grants, then
iterates over every record of every test-harness FAD in order, running
`thRecordStep`; the local variable `grant_objects_test_harness` is
modelled by the `Option` component of the fold state, starting
unassigned (`none`).  If the loops never assign it, the final read of
the variable raises `UnboundLocalError`, modelled as `Except.error`. -/
def getGrantObjectsFromFAD (terrainElevation : ℚ → ℚ → ℚ)
    (sas_uut_fad_object : FadObject) (sas_th_fad_objects : List FadObject) :
    Except String (List CbsdGrantInformation) := do
  let grant_objects_uut ← getAllGrantInformationFromCbsdDataDump terrainElevation
    sas_uut_fad_object.cbsdRecords true
  let thRecords := (sas_th_fad_objects.map FadObject.cbsdRecords).flatten
  let final ← thRecords.foldlM (thRecordStep terrainElevation) ([], none)
  match final.2 with
  | none => Except.error "UnboundLocalError: local variable grant_objects_test_harness referenced before assignment"
  | some grant_objects_test_harness =>
      Except.ok (grant_objects_uut ++ grant_objects_test_harness)

/-- Incidence angles returned by the propagation collaborators. -/
structure IncidenceAngles where
  hor_cbsd : ℝ
  ver_cbsd : ℝ
  hor_rx : ℝ
  ver_rx : ℝ

/-- The bundle of external collaborator functions consumed by the
interference formulas, as abstract pure functions: the ITM and hybrid
propagation models (`wf_itm.CalcItmPropagationLoss`,
`wf_hybrid.CalcHybridPropagationLoss`, each returning a path loss in dB
and the incidence angles; their auxiliary third output is discarded by
the source) and the three antenna-gain pattern evaluators. -/
structure PropagationEnv where
  calcItmPropagationLoss : ℚ → ℚ → ℚ → ℚ → ℚ → ℚ → Bool → ℝ × IncidenceAngles
  calcHybridPropagationLoss : ℚ → ℚ → ℚ → ℚ → ℚ → ℚ → Bool → String → ℝ × IncidenceAngles
  getStandardAntennaGains : ℝ → ℚ → ℚ → ℚ → ℝ
  getAntennaPatternGains : ℝ → ℚ → ℚ → ℚ → ℝ
  getFssAntennaGains : ℝ → ℝ → ℚ → ℚ → ℚ → ℝ

/-- Source `getEffectiveSystemEirp`:
`(max_eirp - cbsd_max_ant_gain) + effective_ant_gain + linearToDb(reference_bandwidth / MHZ)`. -/
noncomputable def getEffectiveSystemEirp (max_eirp cbsd_max_ant_gain effective_ant_gain
    reference_bandwidth : ℝ) : ℝ :=
  (max_eirp - cbsd_max_ant_gain) + effective_ant_gain +
    linearToDb (reference_bandwidth / (MHZ : ℝ))

/-- `getEffectiveSystemEirp` at its default reference bandwidth
(`reference_bandwidth=IAPBW_HZ` in the source signature). -/
noncomputable def getEffectiveSystemEirpDefault (max_eirp cbsd_max_ant_gain
    effective_ant_gain : ℝ) : ℝ :=
  getEffectiveSystemEirp max_eirp cbsd_max_ant_gain effective_ant_gain ((IAPBW_HZ : ℚ) : ℝ)

/-- Source `getFssMaskLoss`: piecewise mask loss of a grant against the
50 MHz offset below the low edge of the FSS passband, with the branch
conditions and their order exactly as in the source; when no branch
condition holds the initial value 0 is returned. -/
noncomputable def getFssMaskLoss (cbsd_grant : CbsdGrantInformation)
    (constraint : ProtectionConstraint) : ℝ :=
  let offset := constraint.low_frequency - 50 * MHZ
  let cbsd_freq_range := cbsd_grant.high_frequency - cbsd_grant.low_frequency
  if constraint.low_frequency < cbsd_grant.low_frequency ∧
      constraint.low_frequency < cbsd_grant.high_frequency then
    (0.5 : ℝ)
  else if cbsd_grant.low_frequency < offset ∧ cbsd_grant.high_frequency < offset then
    linearToDb (((cbsd_freq_range / MHZ) * 0.25 : ℚ) : ℝ)
  else if cbsd_grant.low_frequency < offset ∧ cbsd_grant.high_frequency > offset then
    linearToDb ((((offset - cbsd_grant.low_frequency) / MHZ) * 0.25 : ℚ) : ℝ) +
      linearToDb ((((cbsd_grant.high_frequency - offset) / MHZ) * 0.6 : ℚ) : ℝ)
  else if constraint.low_frequency > cbsd_grant.low_frequency ∧
      constraint.low_frequency > cbsd_grant.high_frequency ∧
      cbsd_grant.low_frequency > offset ∧ cbsd_grant.high_frequency > offset then
    linearToDb (((cbsd_freq_range / MHZ) * 0.6 : ℚ) : ℝ)
  else 0

/-- Source `computeInterferencePpaGwpzPoint`.  When the grant and the
protection point coincide (equal latitude and longitude) the source uses
zero loss and zero incidence angles without calling the propagation
collaborator; otherwise it calls the hybrid model. -/
noncomputable def computeInterferencePpaGwpzPoint (env : PropagationEnv)
    (cbsd_grant : CbsdGrantInformation) (constraint : ProtectionConstraint)
    (h_inc_ant : ℚ) (max_eirp : ℝ) (region : String) : ℝ :=
  let res :=
    if cbsd_grant.latitude = constraint.latitude ∧
        cbsd_grant.longitude = constraint.longitude then
      ((0 : ℝ), IncidenceAngles.mk 0 0 0 0)
    else
      env.calcHybridPropagationLoss cbsd_grant.latitude cbsd_grant.longitude
        cbsd_grant.height_agl constraint.latitude constraint.longitude h_inc_ant
        cbsd_grant.indoor_deployment region
  let db_loss := res.1
  let incidence_angles := res.2
  let ant_gain := env.getStandardAntennaGains incidence_angles.hor_cbsd
    cbsd_grant.antenna_azimuth cbsd_grant.antenna_beamwidth cbsd_grant.antenna_gain
  let eirp := getEffectiveSystemEirpDefault max_eirp (cbsd_grant.antenna_gain : ℝ) ant_gain
  eirp - db_loss

/-- Source `computeInterferenceEsc`.  Always calls the ITM propagation
collaborator (no co-location special case), adds the receive-side sensor
pattern gain, and subtracts the in-band insertion loss. -/
noncomputable def computeInterferenceEsc (env : PropagationEnv)
    (cbsd_grant : CbsdGrantInformation) (constraint : ProtectionConstraint)
    (esc_antenna_info : EscInformation) (max_eirp : ℝ) : ℝ :=
  let res := env.calcItmPropagationLoss cbsd_grant.latitude cbsd_grant.longitude
    cbsd_grant.height_agl constraint.latitude constraint.longitude
    esc_antenna_info.antenna_height cbsd_grant.indoor_deployment
  let db_loss := res.1
  let incidence_angles := res.2
  let ant_gain := env.getStandardAntennaGains incidence_angles.hor_cbsd
    cbsd_grant.antenna_azimuth cbsd_grant.antenna_beamwidth cbsd_grant.antenna_gain
  let esc_ant_gain := env.getAntennaPatternGains incidence_angles.hor_rx
    esc_antenna_info.antenna_azimuth esc_antenna_info.antenna_pattern_gain
    esc_antenna_info.antenna_gain
  let effective_ant_gain := ant_gain + esc_ant_gain
  let eirp := getEffectiveSystemEirpDefault max_eirp (cbsd_grant.antenna_gain : ℝ)
    effective_ant_gain
  eirp - db_loss - IN_BAND_INSERTION_LOSS

/-- Source `computeInterferenceFssCochannel`.  Always calls the ITM
propagation collaborator, adds the receive-side FSS antenna gain, and
subtracts the in-band insertion loss. -/
noncomputable def computeInterferenceFssCochannel (env : PropagationEnv)
    (cbsd_grant : CbsdGrantInformation) (constraint : ProtectionConstraint)
    (fss_info : FssProtectionPoint) (max_eirp : ℝ) : ℝ :=
  let res := env.calcItmPropagationLoss cbsd_grant.latitude cbsd_grant.longitude
    cbsd_grant.height_agl constraint.latitude constraint.longitude
    fss_info.height_agl cbsd_grant.indoor_deployment
  let db_loss := res.1
  let incidence_angles := res.2
  let ant_gain := env.getStandardAntennaGains incidence_angles.hor_cbsd
    cbsd_grant.antenna_azimuth cbsd_grant.antenna_beamwidth cbsd_grant.antenna_gain
  let fss_ant_gain := env.getFssAntennaGains incidence_angles.hor_rx
    incidence_angles.ver_rx fss_info.pointing_azimuth fss_info.pointing_elevation
    fss_info.max_gain_dbi
  let effective_ant_gain := ant_gain + fss_ant_gain
  let eirp := getEffectiveSystemEirpDefault max_eirp (cbsd_grant.antenna_gain : ℝ)
    effective_ant_gain
  eirp - db_loss - IN_BAND_INSERTION_LOSS

/-- Source `computeInterferenceFssBlocking`.  Always calls the ITM
propagation collaborator, uses the grant occupied bandwidth
`high_frequency - low_frequency` as the EIRP reference bandwidth, and
subtracts the piecewise mask loss instead of the insertion loss. -/
noncomputable def computeInterferenceFssBlocking (env : PropagationEnv)
    (cbsd_grant : CbsdGrantInformation) (constraint : ProtectionConstraint)
    (fss_info : FssProtectionPoint) (max_eirp : ℝ) : ℝ :=
  let res := env.calcItmPropagationLoss cbsd_grant.latitude cbsd_grant.longitude
    cbsd_grant.height_agl constraint.latitude constraint.longitude
    fss_info.height_agl cbsd_grant.indoor_deployment
  let db_loss := res.1
  let incidence_angles := res.2
  let ant_gain := env.getStandardAntennaGains incidence_angles.hor_cbsd
    cbsd_grant.antenna_azimuth cbsd_grant.antenna_beamwidth cbsd_grant.antenna_gain
  let fss_ant_gain := env.getFssAntennaGains incidence_angles.hor_rx
    incidence_angles.ver_rx fss_info.pointing_azimuth fss_info.pointing_elevation
    fss_info.max_gain_dbi
  let effective_ant_gain := ant_gain + fss_ant_gain
  let eirp := getEffectiveSystemEirp max_eirp (cbsd_grant.antenna_gain : ℝ)
    effective_ant_gain
    (((cbsd_grant.high_frequency - cbsd_grant.low_frequency : ℚ)) : ℝ)
  eirp - getFssMaskLoss cbsd_grant constraint - db_loss

/-- Source `computeInterference`: dispatches on the entity-type tag with
three identity tests (`is FSS_CO_CHANNEL`, `is FSS_BLOCKING`, `is ESC`)
and a final `else` that routes every other tag, the two area types as
well as any value outside the enumeration, to the area formula; each dB
result is converted to linear power with `dbToLinear`. -/
noncomputable def computeInterference (env : PropagationEnv)
    (grant : CbsdGrantInformation) (eirp : ℝ)
    (channel_constraint : ProtectionConstraint) (fss_info : FssProtectionPoint)
    (esc_antenna_info : EscInformation) (region_type : String) : ℝ :=
  match channel_constraint.entity_type with
  | EntityTag.known ProtectedEntityType.FSS_CO_CHANNEL =>
      dbToLinear (computeInterferenceFssCochannel env grant channel_constraint
        fss_info eirp)
  | EntityTag.known ProtectedEntityType.FSS_BLOCKING =>
      dbToLinear (computeInterferenceFssBlocking env grant channel_constraint
        fss_info eirp)
  | EntityTag.known ProtectedEntityType.ESC =>
      dbToLinear (computeInterferenceEsc env grant channel_constraint
        esc_antenna_info eirp)
  | _ =>
      dbToLinear (computeInterferencePpaGwpzPoint env grant channel_constraint
        GWPZ_PPA_HEIGHT eirp region_type)

/-! ## Channelizer properties (claim C2) -/

/-- Lower clipped edge used by the channelizer. -/
def chanStart (low_freq_hz : ℚ) : ℚ := max low_freq_hz (3550 * MHZ)

/-- Upper clipped edge used by the channelizer. -/
def chanStop (high_freq_hz : ℚ) : ℚ := min high_freq_hz (3700 * MHZ)

/-- Number of channels emitted by the channelizer (the `np.arange` point
count) for a range whose clipped edges are in order. -/
def numChans (low_freq_hz high_freq_hz : ℚ) : ℕ :=
  (⌈(chanStop high_freq_hz - chanStart low_freq_hz) / (5 * MHZ)⌉).toNat

theorem chanStart_lt_chanStop (low high : ℚ) (h1 : low < high)
    (h2 : low < 3700 * MHZ) (h3 : 3550 * MHZ < high) :
    chanStart low < chanStop high := by
  simp only [chanStart, chanStop, max_lt_iff, lt_min_iff]
  exact ⟨⟨h1, h3⟩, h2, by norm_num [MHZ]⟩

theorem getProtectedChannels_eq_map (low high : ℚ)
    (h : chanStart low < chanStop high) :
    getProtectedChannels low high = (List.range (numChans low high)).map
      (fun (i : ℕ) => (chanStart low + (i : ℚ) * (5 * MHZ),
                 chanStart low + (i : ℚ) * (5 * MHZ) + 5 * MHZ)) := by
  simp only [getProtectedChannels, numChans, chanStart, chanStop] at *
  rw [if_pos h]

/-- Claim C2 (amended): for a range with `low < high` that intersects the
3550-3700 MHz band, `getProtectedChannels` returns an ordered sequence of
contiguous, non-overlapping channels that starts at `max(low, 3550 MHz)`;
every channel, including the final one, is exactly 5 MHz wide, so when
the clipped range is not an exact multiple of 5 MHz the final channel
overshoots `min(high, 3700 MHz)` rather than being emitted narrower: the
sequence covers `[start, start + n * 5 MHz) ⊇ [start, stop)` with
`n = ⌈(stop - start) / 5 MHz⌉`, its last channel starting below `stop`.
Calling it twice with identical inputs gives identical results. -/
theorem getProtectedChannels_channelization (low high : ℚ)
    (h1 : low < high) (h2 : low < 3700 * MHZ) (h3 : 3550 * MHZ < high) :
    (getProtectedChannels low high).length = numChans low high ∧
    0 < numChans low high ∧
    (∀ i, i < numChans low high →
      (getProtectedChannels low high)[i]? =
        some (chanStart low + (i : ℚ) * (5 * MHZ),
              chanStart low + (i : ℚ) * (5 * MHZ) + 5 * MHZ)) ∧
    (getProtectedChannels low high)[0]? =
      some (chanStart low, chanStart low + 5 * MHZ) ∧
    (∀ p ∈ getProtectedChannels low high, p.2 - p.1 = 5 * MHZ) ∧
    (∀ i, i + 1 < numChans low high →
      ((getProtectedChannels low high)[i]?.map Prod.snd) =
        ((getProtectedChannels low high)[i + 1]?.map Prod.fst)) ∧
    chanStop high ≤ chanStart low + (numChans low high : ℚ) * (5 * MHZ) ∧
    chanStart low + ((numChans low high : ℚ) - 1) * (5 * MHZ) < chanStop high ∧
    getProtectedChannels low high = getProtectedChannels low high := by
  have h := chanStart_lt_chanStop low high h1 h2 h3
  have h5 : (0:ℚ) < 5 * MHZ := by norm_num [MHZ]
  have hx : (0:ℚ) < (chanStop high - chanStart low) / (5 * MHZ) :=
    div_pos (by linarith) h5
  have hc : 0 < ⌈(chanStop high - chanStart low) / (5 * MHZ)⌉ := Int.ceil_pos.mpr hx
  have hn : 0 < numChans low high := by unfold numChans; omega
  have hcast : ((numChans low high : ℕ) : ℚ) =
      ((⌈(chanStop high - chanStart low) / (5 * MHZ)⌉ : ℤ) : ℚ) := by
    unfold numChans
    exact_mod_cast Int.toNat_of_nonneg hc.le
  have hmap := getProtectedChannels_eq_map low high h
  refine ⟨?_, hn, ?_, ?_, ?_, ?_, ?_, ?_, rfl⟩
  · rw [hmap]; simp
  · intro i hi
    rw [hmap]
    simp [List.getElem?_map, List.getElem?_range, hi]
  · rw [hmap]
    simp [List.getElem?_map, List.getElem?_range, hn]
  · intro p hp
    rw [hmap] at hp
    obtain ⟨i, _, rfl⟩ := List.mem_map.mp hp
    ring
  · intro i hi
    rw [hmap]
    have hi1 : i < numChans low high := by omega
    simp [List.getElem?_map, List.getElem?_range, hi, hi1]
    ring
  · rw [hcast]
    have hle := Int.le_ceil ((chanStop high - chanStart low) / (5 * MHZ))
    rw [div_le_iff₀ h5] at hle
    linarith
  · rw [hcast]
    have hlt := Int.ceil_lt_add_one ((chanStop high - chanStart low) / (5 * MHZ))
    have h4 : ((⌈(chanStop high - chanStart low) / (5 * MHZ)⌉ : ℤ) : ℚ) - 1 <
        (chanStop high - chanStart low) / (5 * MHZ) := by linarith
    have := (lt_div_iff₀ h5).mp h4
    linarith

/-- Claim C2 witness: the channelization theorem applied to the range
3550-3552 MHz. -/
theorem getProtectedChannels_channelization_witness :
    (getProtectedChannels 3550000000 3552000000).length =
      numChans 3550000000 3552000000 ∧
    0 < numChans 3550000000 3552000000 :=
  ⟨(getProtectedChannels_channelization 3550000000 3552000000 (by norm_num)
      (by norm_num [MHZ]) (by norm_num [MHZ])).1,
   (getProtectedChannels_channelization 3550000000 3552000000 (by norm_num)
      (by norm_num [MHZ]) (by norm_num [MHZ])).2.1⟩

/-- Claim C2 counterexample: for the range 3550-3552 MHz the clipped range
[3550 MHz, 3552 MHz) is not an exact multiple of 5 MHz, yet the single
(hence final) channel is emitted at the full 5 MHz width, with its high
edge 3555 MHz beyond the clipped high edge 3552 MHz, refuting the claim
that the final channel is emitted at its natural narrower width and that
the covered interval is exactly the clipped range. -/
theorem getProtectedChannels_final_channel_not_narrower :
    getProtectedChannels 3550000000 3552000000 = [(3550000000, 3555000000)] ∧
    min (3552000000 : ℚ) (3700 * MHZ) = 3552000000 ∧
    (3555000000 : ℚ) - 3550000000 = 5 * MHZ ∧
    (3552000000 : ℚ) < 3555000000 := by
  refine ⟨?_, by norm_num [MHZ], by norm_num [MHZ], by norm_num⟩
  norm_num [getProtectedChannels, MHZ]
  rw [show (⌈(2:ℚ) / 5⌉ : ℤ) = 1 from by rw [Int.ceil_eq_iff]; norm_num]
  simp [List.range_succ]
  norm_num

/-! ## Mask-loss branch structure (claim C1) -/

/-- First branch condition of `getFssMaskLoss`, as written in the source. -/
def maskCond1 (g : CbsdGrantInformation) (c : ProtectionConstraint) : Prop :=
  c.low_frequency < g.low_frequency ∧ c.low_frequency < g.high_frequency

/-- Second branch condition of `getFssMaskLoss`: grant range entirely below
the 50 MHz offset. -/
def maskCond2 (g : CbsdGrantInformation) (c : ProtectionConstraint) : Prop :=
  g.low_frequency < c.low_frequency - 50 * MHZ ∧
    g.high_frequency < c.low_frequency - 50 * MHZ

/-- Third branch condition of `getFssMaskLoss`: grant range straddling the
50 MHz offset. -/
def maskCond3 (g : CbsdGrantInformation) (c : ProtectionConstraint) : Prop :=
  g.low_frequency < c.low_frequency - 50 * MHZ ∧
    g.high_frequency > c.low_frequency - 50 * MHZ

/-- Fourth branch condition of `getFssMaskLoss`: grant range entirely above
the 50 MHz offset and below the passband low edge. -/
def maskCond4 (g : CbsdGrantInformation) (c : ProtectionConstraint) : Prop :=
  c.low_frequency > g.low_frequency ∧ c.low_frequency > g.high_frequency ∧
    g.low_frequency > c.low_frequency - 50 * MHZ ∧
    g.high_frequency > c.low_frequency - 50 * MHZ

/-- Claim C1 (amended): under `grant.low < grant.high` the four branch
conditions of `getFssMaskLoss` are pairwise mutually exclusive, so at
most one branch applies (not exactly one: boundary inputs satisfy no
condition and fall through to the initial value 0); the first branch
fires exactly when the constraint low edge is strictly below the grant
low frequency (not whenever it falls within or below the grant range),
giving 0.5 dB, and each remaining branch yields its table formula. -/
theorem getFssMaskLoss_branches (g : CbsdGrantInformation)
    (c : ProtectionConstraint) (h : g.low_frequency < g.high_frequency) :
    (maskCond1 g c ↔ c.low_frequency < g.low_frequency) ∧
    (maskCond1 g c → getFssMaskLoss g c = 0.5) ∧
    (maskCond2 g c → getFssMaskLoss g c =
      linearToDb ((((g.high_frequency - g.low_frequency) / MHZ) * 0.25 : ℚ) : ℝ)) ∧
    (maskCond3 g c → getFssMaskLoss g c =
      linearToDb ((((c.low_frequency - 50 * MHZ - g.low_frequency) / MHZ) * 0.25 : ℚ) : ℝ) +
        linearToDb ((((g.high_frequency - (c.low_frequency - 50 * MHZ)) / MHZ) * 0.6 : ℚ) : ℝ)) ∧
    (maskCond4 g c → getFssMaskLoss g c =
      linearToDb ((((g.high_frequency - g.low_frequency) / MHZ) * 0.6 : ℚ) : ℝ)) ∧
    (¬ maskCond1 g c → ¬ maskCond2 g c → ¬ maskCond3 g c → ¬ maskCond4 g c →
      getFssMaskLoss g c = 0) ∧
    ¬ (maskCond1 g c ∧ maskCond2 g c) ∧ ¬ (maskCond1 g c ∧ maskCond3 g c) ∧
    ¬ (maskCond1 g c ∧ maskCond4 g c) ∧ ¬ (maskCond2 g c ∧ maskCond3 g c) ∧
    ¬ (maskCond2 g c ∧ maskCond4 g c) ∧ ¬ (maskCond3 g c ∧ maskCond4 g c) := by
  have hM : (0:ℚ) < 50 * MHZ := by norm_num [MHZ]
  simp only [maskCond1, maskCond2, maskCond3, maskCond4] at *
  refine ⟨⟨fun hc => hc.1, fun hc => ⟨hc, lt_trans hc h⟩⟩, ?_, ?_, ?_, ?_, ?_,
    ?_, ?_, ?_, ?_, ?_, ?_⟩
  · intro h1
    simp only [getFssMaskLoss]
    rw [if_pos h1]
  · intro h2
    have h1 : ¬ (c.low_frequency < g.low_frequency ∧
        c.low_frequency < g.high_frequency) := by
      rintro ⟨a, -⟩; linarith [h2.1]
    simp only [getFssMaskLoss]
    rw [if_neg h1, if_pos h2]
  · intro h3
    have h1 : ¬ (c.low_frequency < g.low_frequency ∧
        c.low_frequency < g.high_frequency) := by
      rintro ⟨a, -⟩; linarith [h3.1]
    have h2 : ¬ (g.low_frequency < c.low_frequency - 50 * MHZ ∧
        g.high_frequency < c.low_frequency - 50 * MHZ) := by
      rintro ⟨-, b⟩; linarith [h3.2]
    simp only [getFssMaskLoss]
    rw [if_neg h1, if_neg h2, if_pos h3]
  · intro h4
    have h1 : ¬ (c.low_frequency < g.low_frequency ∧
        c.low_frequency < g.high_frequency) := by
      rintro ⟨a, -⟩; linarith [h4.1]
    have h2 : ¬ (g.low_frequency < c.low_frequency - 50 * MHZ ∧
        g.high_frequency < c.low_frequency - 50 * MHZ) := by
      rintro ⟨a, -⟩; linarith [h4.2.2.1]
    have h3 : ¬ (g.low_frequency < c.low_frequency - 50 * MHZ ∧
        g.high_frequency > c.low_frequency - 50 * MHZ) := by
      rintro ⟨a, -⟩; linarith [h4.2.2.1]
    simp only [getFssMaskLoss]
    rw [if_neg h1, if_neg h2, if_neg h3, if_pos h4]
  · intro h1 h2 h3 h4
    simp only [getFssMaskLoss]
    rw [if_neg h1, if_neg h2, if_neg h3, if_neg h4]
  · rintro ⟨⟨a, -⟩, ⟨b, -⟩⟩; linarith
  · rintro ⟨⟨a, -⟩, ⟨b, -⟩⟩; linarith
  · rintro ⟨⟨a, -⟩, ⟨b, -, -, -⟩⟩; linarith
  · rintro ⟨⟨-, a⟩, ⟨-, b⟩⟩; linarith
  · rintro ⟨⟨a, -⟩, ⟨-, -, b, -⟩⟩; linarith
  · rintro ⟨⟨a, -⟩, ⟨-, -, b, -⟩⟩; linarith

/-- Sample grant for the mask-loss claim: frequency range 3600-3700 MHz. -/
def maskSampleGrant : CbsdGrantInformation :=
  ⟨0, 0, 10, false, 0, 0, 0, "A", 20, 3600000000, 3700000000, true⟩

/-- Sample FSS blocking constraint whose passband low edge 3650 MHz falls
inside the sample grant range. -/
def maskSampleConstraint : ProtectionConstraint :=
  ⟨0, 0, 3650000000, 3750000000, EntityTag.known ProtectedEntityType.FSS_BLOCKING⟩

/-- Claim C1 witness: branch structure applied to a grant at 3650-3700 MHz
against a constraint low edge of 3600 MHz, which is strictly below the
grant range, so the first branch fires with 0.5 dB. -/
theorem getFssMaskLoss_branches_witness :
    getFssMaskLoss ⟨0, 0, 10, false, 0, 0, 0, "A", 20, 3650000000, 3700000000, true⟩
      ⟨0, 0, 3600000000, 3700000000, EntityTag.known ProtectedEntityType.FSS_BLOCKING⟩ = 0.5 :=
  (getFssMaskLoss_branches
      ⟨0, 0, 10, false, 0, 0, 0, "A", 20, 3650000000, 3700000000, true⟩
      ⟨0, 0, 3600000000, 3700000000, EntityTag.known ProtectedEntityType.FSS_BLOCKING⟩
      (by norm_num)).2.1
    (by constructor <;> norm_num)

/-- Claim C1 counterexample: the constraint low edge 3650 MHz falls within
the grant range 3600-3700 MHz, yet the mask loss is 0 dB, not 0.5 dB: no
branch condition holds there, refuting both the within-or-below reading
of the first branch and the statement that exactly one branch always
applies. -/
theorem getFssMaskLoss_within_range_not_half :
    maskSampleGrant.low_frequency < maskSampleGrant.high_frequency ∧
    maskSampleGrant.low_frequency ≤ maskSampleConstraint.low_frequency ∧
    maskSampleConstraint.low_frequency ≤ maskSampleGrant.high_frequency ∧
    getFssMaskLoss maskSampleGrant maskSampleConstraint = 0 ∧
    (0 : ℝ) ≠ 0.5 := by
  refine ⟨by norm_num [maskSampleGrant], by norm_num [maskSampleGrant, maskSampleConstraint],
    by norm_num [maskSampleGrant, maskSampleConstraint], ?_, by norm_num⟩
  simp only [getFssMaskLoss, maskSampleGrant, maskSampleConstraint]
  norm_num [MHZ]

/-! ## Overlap filter and the dead ESC carve-out (claim C3) -/

theorem escEqDistanceEntryTag_false (t : EntityTag) :
    escEqDistanceEntryTag t = false := by
  cases t <;> rfl

/-- Category-A sample grant overlapping the ESC passband above 3660 MHz. -/
def escSampleGrantA : CbsdGrantInformation :=
  ⟨0, 0, 10, false, 0, 0, 0, "A", 20, 3640000000, 3680000000, true⟩

/-- ESC sensor constraint with high frequency 3680 MHz, above the
category-A passband ceiling of 3660 MHz. -/
def escSampleConstraint : ProtectionConstraint :=
  ⟨0, 0, 3550000000, 3680000000, EntityTag.known ProtectedEntityType.ESC⟩

/-- Claim C3 (code bug): the category-A carve-out of
`findOverlappingGrants` is dead code.  The guard compares the enum
member `ESC` against the tuple stored in the radii table, which is never
true, so the function always reduces to the plain positive-overlap
filter; in particular a category-A grant overlapping an ESC constraint
whose high frequency 3680 MHz exceeds the 3660 MHz category-A ceiling is
included, while the source comment and the spec require it excluded. -/
theorem findOverlappingGrants_esc_carveout_dead :
    (∀ (grants : List CbsdGrantInformation) (c : ProtectionConstraint),
      findOverlappingGrants grants c = grants.filter fun grant =>
        decide (0 < min grant.high_frequency c.high_frequency -
          max grant.low_frequency c.low_frequency)) ∧
    escSampleGrantA.cbsd_category = "A" ∧
    ESC_CAT_A_HIGH_FREQ_HZ < escSampleConstraint.high_frequency ∧
    escSampleConstraint.entity_type = EntityTag.known ProtectedEntityType.ESC ∧
    0 < min escSampleGrantA.high_frequency escSampleConstraint.high_frequency -
      max escSampleGrantA.low_frequency escSampleConstraint.low_frequency ∧
    findOverlappingGrants [escSampleGrantA] escSampleConstraint = [escSampleGrantA] := by
  have hdead : ∀ (grants : List CbsdGrantInformation) (c : ProtectionConstraint),
      findOverlappingGrants grants c = grants.filter fun grant =>
        decide (0 < min grant.high_frequency c.high_frequency -
          max grant.low_frequency c.low_frequency) := by
    intro grants c
    simp only [findOverlappingGrants, escEqDistanceEntryTag_false, Bool.false_eq_true,
      if_false]
  refine ⟨hdead, rfl, by norm_num [ESC_CAT_A_HIGH_FREQ_HZ, MHZ, escSampleConstraint],
    rfl, by norm_num [escSampleGrantA, escSampleConstraint], ?_⟩
  rw [hdead]
  simp only [List.filter]
  norm_num [escSampleGrantA, escSampleConstraint]

/-! ## Neighborhood filter (claim C7) -/

/-- Claim C7: `findGrantsInsideNeighborhood` returns exactly the subset of
the input grants whose collaborator distance to the protection point is
at most (boundary inclusive) the radius picked from the per-entity-type
table by the grant category; the result is an order-preserving
sublist of the input, and for ESC protection a category-A grant is
tested against 40 km and a category-B grant against 80 km. -/
theorem findGrantsInsideNeighborhood_spec (distKm : ℚ → ℚ → ℚ → ℚ → ℚ)
    (grants : List CbsdGrantInformation) (pt : ℚ × ℚ)
    (et : ProtectedEntityType) :
    (∀ g, g ∈ findGrantsInsideNeighborhood distKm grants pt et ↔
      g ∈ grants ∧ distKm g.latitude g.longitude pt.1 pt.2 ≤
        (if g.cbsd_category = "B" then (DISTANCE_PER_PROTECTION_TYPE et).2
         else (DISTANCE_PER_PROTECTION_TYPE et).1)) ∧
    List.Sublist (findGrantsInsideNeighborhood distKm grants pt et) grants ∧
    (∀ g ∈ grants, g.cbsd_category = "A" →
      distKm g.latitude g.longitude pt.1 pt.2 ≤ ESC_NEIGHBORHOOD_DIST_A →
      g ∈ findGrantsInsideNeighborhood distKm grants pt ProtectedEntityType.ESC) ∧
    (∀ g ∈ grants, g.cbsd_category = "A" →
      ESC_NEIGHBORHOOD_DIST_A < distKm g.latitude g.longitude pt.1 pt.2 →
      g ∉ findGrantsInsideNeighborhood distKm grants pt ProtectedEntityType.ESC) ∧
    (∀ g ∈ grants, g.cbsd_category = "B" →
      distKm g.latitude g.longitude pt.1 pt.2 ≤ ESC_NEIGHBORHOOD_DIST_B →
      g ∈ findGrantsInsideNeighborhood distKm grants pt ProtectedEntityType.ESC) ∧
    (∀ g ∈ grants, g.cbsd_category = "B" →
      ESC_NEIGHBORHOOD_DIST_B < distKm g.latitude g.longitude pt.1 pt.2 →
      g ∉ findGrantsInsideNeighborhood distKm grants pt ProtectedEntityType.ESC) := by
  have hmem : ∀ (et' : ProtectedEntityType) (g : CbsdGrantInformation),
      g ∈ findGrantsInsideNeighborhood distKm grants pt et' ↔
      g ∈ grants ∧ distKm g.latitude g.longitude pt.1 pt.2 ≤
        (if g.cbsd_category = "B" then (DISTANCE_PER_PROTECTION_TYPE et').2
         else (DISTANCE_PER_PROTECTION_TYPE et').1) := by
    intro et' g
    simp [findGrantsInsideNeighborhood, List.mem_filter]
  refine ⟨hmem et, List.filter_sublist _, ?_, ?_, ?_, ?_⟩
  · intro g hg hA hd
    refine (hmem ProtectedEntityType.ESC g).mpr ⟨hg, ?_⟩
    rw [if_neg (by rw [hA]; decide)]
    exact hd
  · intro g hg hA hd hin
    have := ((hmem ProtectedEntityType.ESC g).mp hin).2
    rw [if_neg (by rw [hA]; decide)] at this
    exact absurd this (not_le.mpr hd)
  · intro g hg hB hd
    refine (hmem ProtectedEntityType.ESC g).mpr ⟨hg, ?_⟩
    rw [if_pos hB]
    exact hd
  · intro g hg hB hd hin
    have := ((hmem ProtectedEntityType.ESC g).mp hin).2
    rw [if_pos hB] at this
    exact absurd this (not_le.mpr hd)

/-- Claim C7 witness: with a collaborator returning a distance of exactly
40 km, a category-A grant is (boundary-inclusively) kept by the ESC
neighborhood filter. -/
theorem findGrantsInsideNeighborhood_spec_witness :
    escSampleGrantA ∈ findGrantsInsideNeighborhood (fun _ _ _ _ => 40)
      [escSampleGrantA] (0, 0) ProtectedEntityType.ESC :=
  ((findGrantsInsideNeighborhood_spec (fun _ _ _ _ => 40) [escSampleGrantA]
      (0, 0) ProtectedEntityType.ESC).2.2.1) escSampleGrantA
    (by simp) rfl (by norm_num [ESC_NEIGHBORHOOD_DIST_A])

/-! ## Extraction-time validation (claim C8) -/

/-- Claim C8 (amended): extraction fails fast with the descriptive height
error whenever some record's terrain-normalized antenna height lies
outside [1, 1000] m, and when every height is within bounds it returns
all grants with the frequency fields passed through entirely
unvalidated: a grant frequency range with low ≥ high is extracted
without error, not rejected. -/
theorem getAllGrantInformation_validation (terrainElevation : ℚ → ℚ → ℚ)
    (records : List CbsdDataRecord) (is_managing_sas : Bool) :
    ((∃ r ∈ records, normalizedHeight terrainElevation r < 1 ∨
        1000 < normalizedHeight terrainElevation r) →
      getAllGrantInformationFromCbsdDataDump terrainElevation records is_managing_sas =
        Except.error "CBSD height is less than 1m or greater than 1000m.") ∧
    ((∀ r ∈ records, 1 ≤ normalizedHeight terrainElevation r ∧
        normalizedHeight terrainElevation r ≤ 1000) →
      getAllGrantInformationFromCbsdDataDump terrainElevation records is_managing_sas =
        Except.ok ((records.map (fun r =>
          cbsdGrantsOfRecord (normalizedHeight terrainElevation r) r
            is_managing_sas)).flatten)) := by
  induction records with
  | nil =>
    refine ⟨?_, ?_⟩
    · rintro ⟨r, hr, -⟩
      exact absurd hr (List.not_mem_nil r)
    · intro _
      rfl
  | cons record rest ih =>
    refine ⟨?_, ?_⟩
    · rintro ⟨s, hs, hbad⟩
      rcases List.mem_cons.mp hs with rfl | hmem
      · simp only [getAllGrantInformationFromCbsdDataDump]
        rw [if_pos (by exact_mod_cast hbad)]
      · by_cases hc : normalizedHeight terrainElevation record < 1 ∨
          1000 < normalizedHeight terrainElevation record
        · simp only [getAllGrantInformationFromCbsdDataDump]
          rw [if_pos (by exact_mod_cast hc)]
        · simp only [getAllGrantInformationFromCbsdDataDump]
          rw [if_neg (by exact_mod_cast hc), ih.1 ⟨s, hmem, hbad⟩]
    · intro hall
      have hrec := hall record (List.mem_cons_self record rest)
      have hc : ¬ (normalizedHeight terrainElevation record < 1 ∨
          1000 < normalizedHeight terrainElevation record) := by
        push_neg
        exact ⟨by linarith [hrec.1], by linarith [hrec.2]⟩
      simp only [getAllGrantInformationFromCbsdDataDump]
      rw [if_neg (by exact_mod_cast hc),
        ih.2 (fun r hr => hall r (List.mem_cons_of_mem record hr))]
      simp

/-- Claim C8 witness: a single in-bounds record with one grant extracts to
the corresponding grant record. -/
theorem getAllGrantInformation_validation_witness :
    getAllGrantInformationFromCbsdDataDump (fun _ _ => 0)
      [⟨⟨0, 0, 10, "AGL", false, 0, 0, 0⟩, "A", [⟨5, 3550000000, 3560000000⟩]⟩] true =
      Except.ok [⟨0, 0, 10, false, 0, 0, 0, "A", 5, 3550000000, 3560000000, true⟩] := by
  have h := (getAllGrantInformation_validation (fun _ _ => 0)
    [⟨⟨0, 0, 10, "AGL", false, 0, 0, 0⟩, "A", [⟨5, 3550000000, 3560000000⟩]⟩] true).2
    (by
      intro r hr
      rcases List.mem_singleton.mp hr with rfl
      norm_num [normalizedHeight])
  rw [h]
  rfl

/-- Claim C8 counterexample: a record whose only grant has
low frequency 3600 MHz ≥ high frequency 3550 MHz is extracted without any
error, refuting the claim that extraction fails for malformed frequency
ranges. -/
theorem getAllGrantInformation_no_frequency_validation :
    getAllGrantInformationFromCbsdDataDump (fun _ _ => 0)
      [⟨⟨0, 0, 10, "AGL", false, 0, 0, 0⟩, "A", [⟨5, 3600000000, 3550000000⟩]⟩] true =
      Except.ok [⟨0, 0, 10, false, 0, 0, 0, "A", 5, 3600000000, 3550000000, true⟩] ∧
    (3550000000 : ℚ) ≤ 3600000000 := by
  constructor
  · simp only [getAllGrantInformationFromCbsdDataDump]
    rw [if_neg (by norm_num [normalizedHeight])]
    rfl
  · norm_num

/-! ## Uninitialized test-harness variable (claim C10) -/

/-- Claim C10: whenever the list of test-harness FAD objects is empty, or
every test-harness FAD object yields zero CBSD records, the inner loops
of `getGrantObjectsFromFAD` never assign `grant_objects_test_harness`,
so the function fails with an uninitialized-variable error instead of
returning the SAS-under-test grants alone (assuming the preceding UUT
extraction itself succeeded). -/
theorem getGrantObjectsFromFAD_unbound_local (terrainElevation : ℚ → ℚ → ℚ)
    (sas_uut_fad_object : FadObject) (sas_th_fad_objects : List FadObject)
    (gs : List CbsdGrantInformation)
    (h1 : getAllGrantInformationFromCbsdDataDump terrainElevation
      sas_uut_fad_object.cbsdRecords true = Except.ok gs)
    (h2 : sas_th_fad_objects = [] ∨ ∀ fad ∈ sas_th_fad_objects, fad.cbsdRecords = []) :
    getGrantObjectsFromFAD terrainElevation sas_uut_fad_object sas_th_fad_objects =
      Except.error "UnboundLocalError: local variable grant_objects_test_harness referenced before assignment" := by
  have hflat : (sas_th_fad_objects.map FadObject.cbsdRecords).flatten = [] := by
    rcases h2 with rfl | hall
    · rfl
    · refine List.flatten_eq_nil_iff.mpr ?_
      intro l hl
      obtain ⟨fad, hfad, rfl⟩ := List.mem_map.mp hl
      exact hall fad hfad
  simp only [getGrantObjectsFromFAD, h1, hflat, bind, Except.bind, List.foldlM_nil,
    pure, Except.pure]

/-- Claim C10 witness: empty UUT records and an empty test-harness FAD
list produce the uninitialized-variable error. -/
theorem getGrantObjectsFromFAD_unbound_local_witness :
    getGrantObjectsFromFAD (fun _ _ => 0) ⟨[]⟩ [] =
      Except.error "UnboundLocalError: local variable grant_objects_test_harness referenced before assignment" :=
  getGrantObjectsFromFAD_unbound_local (fun _ _ => 0) ⟨[]⟩ [] [] rfl (Or.inl rfl)

/-! ## Effective EIRP normalizer (claim C4) -/

/-- The effective-EIRP formula as worded by the spec, for the refinement
comparison: `(maxEirp - cbsdNominalAntennaGain) + effectiveDirectionalGain
+ 10*log10(referenceBandwidth / 1 MHz)`. -/
noncomputable def specEffectiveEirp (maxEirp cbsdNominalAntennaGain
    effectiveDirectionalGain referenceBandwidth : ℝ) : ℝ :=
  (maxEirp - cbsdNominalAntennaGain) + effectiveDirectionalGain +
    10 * Real.logb 10 (referenceBandwidth / (MHZ : ℝ))

/-- Claim C4: `getEffectiveSystemEirp` computes exactly the spec formula;
its default reference bandwidth is the 5 MHz IAP bandwidth; doubling a
positive reference bandwidth increases the result by exactly
`10*log10 2`; and the blocking formula passes the grant occupied
bandwidth `high_frequency - low_frequency` as the reference bandwidth. -/
theorem getEffectiveSystemEirp_spec :
    (∀ max_eirp cbsd_max_ant_gain effective_ant_gain reference_bandwidth : ℝ,
      getEffectiveSystemEirp max_eirp cbsd_max_ant_gain effective_ant_gain
          reference_bandwidth =
        specEffectiveEirp max_eirp cbsd_max_ant_gain effective_ant_gain
          reference_bandwidth) ∧
    ((IAPBW_HZ : ℚ) = 5 * MHZ ∧ ∀ max_eirp cbsd_max_ant_gain effective_ant_gain : ℝ,
      getEffectiveSystemEirpDefault max_eirp cbsd_max_ant_gain effective_ant_gain =
        getEffectiveSystemEirp max_eirp cbsd_max_ant_gain effective_ant_gain
          ((IAPBW_HZ : ℚ) : ℝ)) ∧
    (∀ max_eirp cbsd_max_ant_gain effective_ant_gain b : ℝ, 0 < b →
      getEffectiveSystemEirp max_eirp cbsd_max_ant_gain effective_ant_gain (2 * b) =
        getEffectiveSystemEirp max_eirp cbsd_max_ant_gain effective_ant_gain b +
          10 * Real.logb 10 2) ∧
    (∀ (env : PropagationEnv) (g : CbsdGrantInformation)
        (c : ProtectionConstraint) (fss_info : FssProtectionPoint) (max_eirp : ℝ),
      computeInterferenceFssBlocking env g c fss_info max_eirp =
        getEffectiveSystemEirp max_eirp (g.antenna_gain : ℝ)
          (env.getStandardAntennaGains
              (env.calcItmPropagationLoss g.latitude g.longitude g.height_agl
                c.latitude c.longitude fss_info.height_agl g.indoor_deployment).2.hor_cbsd
              g.antenna_azimuth g.antenna_beamwidth g.antenna_gain +
            env.getFssAntennaGains
              (env.calcItmPropagationLoss g.latitude g.longitude g.height_agl
                c.latitude c.longitude fss_info.height_agl g.indoor_deployment).2.hor_rx
              (env.calcItmPropagationLoss g.latitude g.longitude g.height_agl
                c.latitude c.longitude fss_info.height_agl g.indoor_deployment).2.ver_rx
              fss_info.pointing_azimuth fss_info.pointing_elevation fss_info.max_gain_dbi)
          (((g.high_frequency - g.low_frequency : ℚ)) : ℝ) -
        getFssMaskLoss g c -
        (env.calcItmPropagationLoss g.latitude g.longitude g.height_agl
          c.latitude c.longitude fss_info.height_agl g.indoor_deployment).1) := by
  refine ⟨?_, ⟨by norm_num [IAPBW_HZ], fun _ _ _ => rfl⟩, ?_, ?_⟩
  · intro m g a rb
    simp [getEffectiveSystemEirp, specEffectiveEirp, linearToDb]
  · intro m g a b hb
    simp only [getEffectiveSystemEirp, linearToDb]
    have hM : ((MHZ : ℚ) : ℝ) ≠ 0 := by norm_num [MHZ]
    have hbM : b / ((MHZ : ℚ) : ℝ) ≠ 0 := by positivity
    have h2 : (2 : ℝ) * b / ((MHZ : ℚ) : ℝ) = 2 * (b / ((MHZ : ℚ) : ℝ)) := by ring
    rw [h2, Real.logb_mul (by norm_num) hbM]
    ring
  · intro env g c fss_info max_eirp
    rfl

/-- Claim C4 witness: the doubling conjunct applied at reference bandwidth
1 Hz with all gain terms zero. -/
theorem getEffectiveSystemEirp_spec_witness :
    getEffectiveSystemEirp 0 0 0 (2 * 1) =
      getEffectiveSystemEirp 0 0 0 1 + 10 * Real.logb 10 2 :=
  getEffectiveSystemEirp_spec.2.2.1 0 0 0 1 (by norm_num)

/-! ## Dispatcher (claims C5, C6, C9) -/

/-- A concrete collaborator bundle with constant outputs: ITM loss 7 dB,
hybrid loss 3 dB, zero incidence angles, standard antenna gain 1 dBi,
sensor pattern gain 2 dBi, FSS antenna gain 4 dBi. -/
noncomputable def constEnv : PropagationEnv :=
  ⟨fun _ _ _ _ _ _ _ => (7, ⟨0, 0, 0, 0⟩),
   fun _ _ _ _ _ _ _ _ => (3, ⟨0, 0, 0, 0⟩),
   fun _ _ _ _ => 1, fun _ _ _ _ => 2, fun _ _ _ _ _ => 4⟩

/-- The same collaborator bundle as `constEnv` except that the ITM model
reports zero path loss. -/
noncomputable def constEnvZeroItm : PropagationEnv :=
  ⟨fun _ _ _ _ _ _ _ => (0, ⟨0, 0, 0, 0⟩),
   fun _ _ _ _ _ _ _ _ => (3, ⟨0, 0, 0, 0⟩),
   fun _ _ _ _ => 1, fun _ _ _ _ => 2, fun _ _ _ _ _ => 4⟩

/-- A sample grant positioned at latitude 1, longitude 1. -/
def offsetGrant : CbsdGrantInformation :=
  ⟨1, 1, 10, false, 0, 0, 0, "A", 20, 3550000000, 3560000000, true⟩

/-- A sample grant positioned at the origin (co-located with the sample
constraints below). -/
def coGrant : CbsdGrantInformation :=
  ⟨0, 0, 10, false, 0, 0, 0, "A", 20, 3550000000, 3560000000, true⟩

/-- A sample ESC constraint at the origin. -/
def coConstraintEsc : ProtectionConstraint :=
  ⟨0, 0, 3550000000, 3560000000, EntityTag.known ProtectedEntityType.ESC⟩

/-- A sample constraint at the origin whose entity-type field holds a
value outside the enumeration. -/
def unknownTagConstraint : ProtectionConstraint :=
  ⟨0, 0, 3550000000, 3560000000, EntityTag.unknownTag⟩

/-- A sample ESC sensor descriptor. -/
def sampleEscInfo : EscInformation := ⟨10, 0, 0, 0⟩

/-- A sample FSS earth-station descriptor. -/
def sampleFssInfo : FssProtectionPoint := ⟨0, 0, 10, 0, 0, 0⟩

/-- Claim C5 (amended): the dispatcher selects the co-channel, blocking
and ESC formulas for their tags and converts each dB result to linear
power with `dbToLinear`; every other tag value, the two area tags and
also any value outside the five-variant enumeration, falls into the
final `else` and is routed to the area formula, so an unknown tag does
not fail: it silently returns the area-formula interference value. -/
theorem computeInterference_dispatch (env : PropagationEnv)
    (grant : CbsdGrantInformation) (eirp : ℝ) (lat lon lo hi : ℚ)
    (fss_info : FssProtectionPoint) (esc_antenna_info : EscInformation)
    (region_type : String) :
    (computeInterference env grant eirp
        ⟨lat, lon, lo, hi, EntityTag.known ProtectedEntityType.FSS_CO_CHANNEL⟩
        fss_info esc_antenna_info region_type =
      dbToLinear (computeInterferenceFssCochannel env grant
        ⟨lat, lon, lo, hi, EntityTag.known ProtectedEntityType.FSS_CO_CHANNEL⟩
        fss_info eirp)) ∧
    (computeInterference env grant eirp
        ⟨lat, lon, lo, hi, EntityTag.known ProtectedEntityType.FSS_BLOCKING⟩
        fss_info esc_antenna_info region_type =
      dbToLinear (computeInterferenceFssBlocking env grant
        ⟨lat, lon, lo, hi, EntityTag.known ProtectedEntityType.FSS_BLOCKING⟩
        fss_info eirp)) ∧
    (computeInterference env grant eirp
        ⟨lat, lon, lo, hi, EntityTag.known ProtectedEntityType.ESC⟩
        fss_info esc_antenna_info region_type =
      dbToLinear (computeInterferenceEsc env grant
        ⟨lat, lon, lo, hi, EntityTag.known ProtectedEntityType.ESC⟩
        esc_antenna_info eirp)) ∧
    (computeInterference env grant eirp
        ⟨lat, lon, lo, hi, EntityTag.known ProtectedEntityType.GWPZ_AREA⟩
        fss_info esc_antenna_info region_type =
      dbToLinear (computeInterferencePpaGwpzPoint env grant
        ⟨lat, lon, lo, hi, EntityTag.known ProtectedEntityType.GWPZ_AREA⟩
        GWPZ_PPA_HEIGHT eirp region_type)) ∧
    (computeInterference env grant eirp
        ⟨lat, lon, lo, hi, EntityTag.known ProtectedEntityType.PPA_AREA⟩
        fss_info esc_antenna_info region_type =
      dbToLinear (computeInterferencePpaGwpzPoint env grant
        ⟨lat, lon, lo, hi, EntityTag.known ProtectedEntityType.PPA_AREA⟩
        GWPZ_PPA_HEIGHT eirp region_type)) ∧
    (computeInterference env grant eirp ⟨lat, lon, lo, hi, EntityTag.unknownTag⟩
        fss_info esc_antenna_info region_type =
      dbToLinear (computeInterferencePpaGwpzPoint env grant
        ⟨lat, lon, lo, hi, EntityTag.unknownTag⟩
        GWPZ_PPA_HEIGHT eirp region_type)) :=
  ⟨rfl, rfl, rfl, rfl, rfl, rfl⟩

/-- Claim C5 counterexample: with a tag value outside the five-variant
enumeration and concrete constant collaborators, `computeInterference`
does not fail: it returns the linear interference value of the area
formula, here `dbToLinear(1 + linearToDb 5 - 3)` for an allocated EIRP
of 0 dBm, antenna gains 0, standard antenna gain 1 dBi and hybrid path
loss 3 dB. -/
theorem computeInterference_unknown_tag_returns_value :
    computeInterference constEnv offsetGrant 0 unknownTagConstraint
      sampleFssInfo sampleEscInfo "SUBURBAN" =
      dbToLinear (1 + linearToDb 5 - 3) := by
  have hne : ¬ (offsetGrant.latitude = unknownTagConstraint.latitude ∧
      offsetGrant.longitude = unknownTagConstraint.longitude) := by
    norm_num [offsetGrant, unknownTagConstraint]
  simp only [computeInterference, computeInterferencePpaGwpzPoint, if_neg hne,
    constEnv, getEffectiveSystemEirpDefault, getEffectiveSystemEirp,
    offsetGrant, unknownTagConstraint]
  norm_num [IAPBW_HZ, MHZ]

/-- Claim C6 (amended): only the area-point formula special-cases a
co-located grant and protection point; there it uses zero propagation
loss and the zero-angle antenna gain, and its result does not depend on
either propagation collaborator.  The ESC formula (like both FSS
formulas, which share its shape) passes the coordinates to the ITM
collaborator unconditionally and subtracts whatever loss it reports,
co-located or not. -/
theorem coLocated_propagation_special_case (env env2 : PropagationEnv)
    (g : CbsdGrantInformation) (c : ProtectionConstraint) (h_inc_ant : ℚ)
    (max_eirp : ℝ) (region : String) (esc_antenna_info : EscInformation)
    (hgains : env.getStandardAntennaGains = env2.getStandardAntennaGains)
    (hlat : g.latitude = c.latitude) (hlon : g.longitude = c.longitude) :
    (computeInterferencePpaGwpzPoint env g c h_inc_ant max_eirp region =
      getEffectiveSystemEirpDefault max_eirp (g.antenna_gain : ℝ)
        (env.getStandardAntennaGains 0 g.antenna_azimuth g.antenna_beamwidth
          g.antenna_gain) - 0) ∧
    (computeInterferencePpaGwpzPoint env g c h_inc_ant max_eirp region =
      computeInterferencePpaGwpzPoint env2 g c h_inc_ant max_eirp region) ∧
    (computeInterferenceEsc env g c esc_antenna_info max_eirp =
      getEffectiveSystemEirpDefault max_eirp (g.antenna_gain : ℝ)
        (env.getStandardAntennaGains
            (env.calcItmPropagationLoss g.latitude g.longitude g.height_agl
              c.latitude c.longitude esc_antenna_info.antenna_height
              g.indoor_deployment).2.hor_cbsd
            g.antenna_azimuth g.antenna_beamwidth g.antenna_gain +
          env.getAntennaPatternGains
            (env.calcItmPropagationLoss g.latitude g.longitude g.height_agl
              c.latitude c.longitude esc_antenna_info.antenna_height
              g.indoor_deployment).2.hor_rx
            esc_antenna_info.antenna_azimuth esc_antenna_info.antenna_pattern_gain
            esc_antenna_info.antenna_gain) -
        (env.calcItmPropagationLoss g.latitude g.longitude g.height_agl
          c.latitude c.longitude esc_antenna_info.antenna_height
          g.indoor_deployment).1 - IN_BAND_INSERTION_LOSS) := by
  have hco : g.latitude = c.latitude ∧ g.longitude = c.longitude := ⟨hlat, hlon⟩
  refine ⟨?_, ?_, rfl⟩
  · simp only [computeInterferencePpaGwpzPoint, if_pos hco]
  · simp only [computeInterferencePpaGwpzPoint, if_pos hco, hgains]

/-- Claim C6 witness: the co-location special case applied to the sample
grant and ESC-point geometry at the origin with the constant
collaborators. -/
theorem coLocated_propagation_special_case_witness :
    computeInterferencePpaGwpzPoint constEnv coGrant coConstraintEsc
      GWPZ_PPA_HEIGHT 0 "SUBURBAN" =
      getEffectiveSystemEirpDefault 0 (coGrant.antenna_gain : ℝ)
        (constEnv.getStandardAntennaGains 0 coGrant.antenna_azimuth
          coGrant.antenna_beamwidth coGrant.antenna_gain) - 0 :=
  (coLocated_propagation_special_case constEnv constEnv coGrant coConstraintEsc
      GWPZ_PPA_HEIGHT 0 "SUBURBAN" sampleEscInfo rfl rfl rfl).1

/-- Claim C6 counterexample: for a grant exactly co-located with an ESC
protection point, the ESC formula still uses the propagation
collaborator: raising the ITM loss from 0 dB to 7 dB lowers the result
by exactly 7 dB, refuting the claim that all four formulas use zero
propagation loss and skip the collaborator at co-located points. -/
theorem computeInterferenceEsc_coLocated_uses_collaborator :
    (coGrant.latitude = coConstraintEsc.latitude ∧
      coGrant.longitude = coConstraintEsc.longitude) ∧
    computeInterferenceEsc constEnv coGrant coConstraintEsc sampleEscInfo 0 =
      computeInterferenceEsc constEnvZeroItm coGrant coConstraintEsc
        sampleEscInfo 0 - 7 ∧
    (7 : ℝ) ≠ 0 := by
  refine ⟨by norm_num [coGrant, coConstraintEsc], ?_, by norm_num⟩
  simp only [computeInterferenceEsc, constEnv, constEnvZeroItm,
    getEffectiveSystemEirpDefault, getEffectiveSystemEirp]
  ring

/-! ## Monotonicity in allocated EIRP (claim C9) -/

theorem dbToLinear_le_dbToLinear {x y : ℝ} (h : x ≤ y) :
    dbToLinear x ≤ dbToLinear y := by
  unfold dbToLinear
  exact (Real.rpow_le_rpow_left_iff (by norm_num : (1:ℝ) < 10)).mpr (by linarith)

/-- Claim C9: for a fixed grant, constraint, entity type and fixed
collaborator outputs, `computeInterference` is monotonically
non-decreasing in the allocated EIRP argument. -/
theorem computeInterference_monotone_eirp (env : PropagationEnv)
    (grant : CbsdGrantInformation) (c : ProtectionConstraint)
    (fss_info : FssProtectionPoint) (esc_antenna_info : EscInformation)
    (region_type : String) (e1 e2 : ℝ) (h : e1 ≤ e2) :
    computeInterference env grant e1 c fss_info esc_antenna_info region_type ≤
      computeInterference env grant e2 c fss_info esc_antenna_info region_type := by
  obtain ⟨lat, lon, lo, hi, tag⟩ := c
  have harea : dbToLinear (computeInterferencePpaGwpzPoint env grant
      ⟨lat, lon, lo, hi, tag⟩ GWPZ_PPA_HEIGHT e1 region_type) ≤
      dbToLinear (computeInterferencePpaGwpzPoint env grant
      ⟨lat, lon, lo, hi, tag⟩ GWPZ_PPA_HEIGHT e2 region_type) := by
    apply dbToLinear_le_dbToLinear
    simp only [computeInterferencePpaGwpzPoint, getEffectiveSystemEirpDefault,
      getEffectiveSystemEirp]
    linarith
  cases tag with
  | known t =>
    cases t with
    | FSS_CO_CHANNEL =>
      apply dbToLinear_le_dbToLinear
      simp only [computeInterferenceFssCochannel, getEffectiveSystemEirpDefault,
        getEffectiveSystemEirp]
      linarith
    | FSS_BLOCKING =>
      apply dbToLinear_le_dbToLinear
      simp only [computeInterferenceFssBlocking, getEffectiveSystemEirp]
      linarith
    | ESC =>
      apply dbToLinear_le_dbToLinear
      simp only [computeInterferenceEsc, getEffectiveSystemEirpDefault,
        getEffectiveSystemEirp]
      linarith
    | GWPZ_AREA => exact harea
    | PPA_AREA => exact harea
  | unknownTag => exact harea

/-- Claim C9 witness: monotonicity applied with concrete constant
collaborators, the sample grant and the sample ESC constraint, at
allocated EIRPs 0 and 1 dBm. -/
theorem computeInterference_monotone_eirp_witness :
    computeInterference constEnv offsetGrant 0 coConstraintEsc sampleFssInfo
      sampleEscInfo "SUBURBAN" ≤
      computeInterference constEnv offsetGrant 1 coConstraintEsc sampleFssInfo
        sampleEscInfo "SUBURBAN" :=
  computeInterference_monotone_eirp constEnv offsetGrant coConstraintEsc
    sampleFssInfo sampleEscInfo "SUBURBAN" 0 1 (by norm_num)

end Interference
